import Mathlib

/-!
Shallow embedding of `src/utils/traceroute.js` from the react-traceroute
repository: the address matcher (`ipToNumber`, `isIPInNetwork`), the route
lookup (`findRouteEntry`), the gateway resolution (`findEquipmentByGateway`)
and the traceroute loop (`executeTraceroute`), together with theorems about
the claims of the specification.

JavaScript numbers that flow through the bitwise operators are modelled as
mathematical integers together with the ECMAScript ToInt32/ToUint32
conversions written out explicitly (`% 2^32` and the signed re-centering).
NaN is modelled as `Option.none` where it can arise (`Number`, `parseInt`);
the bitwise operators coerce NaN and undefined to 0, exactly as ToInt32 does.
-/

namespace Traceroute

/-- One entry of the routing table, with the source's field names
(`Equipo`, `IP_Destino`, `Mascara`, `Gateway`). -/
structure Route where
  Equipo : String
  IP_Destino : String
  Mascara : String
  Gateway : String
deriving DecidableEq, Repr

/-- One hop pushed by `executeTraceroute`: `currentEquipment`,
`destNetwork` (network string concatenated with the mask string),
`gateway`, and `nextEquipment` (`none` models JS `null`). -/
structure Hop where
  currentEquipment : String
  destNetwork : String
  gateway : String
  nextEquipment : Option String
deriving DecidableEq, Repr

/-- The result object returned by `executeTraceroute`:
`success`, `error` (`none` models JS `null`), the hop list, and the three
reporting fields carried through unchanged. -/
structure TraceResult where
  success : Bool
  error : Option String
  hops : List Hop
  sourceEquipment : String
  sourceIP : String
  destIP : String
deriving DecidableEq, Repr

/-- Helper for `splitOnDot`: split a char list at each `'.'`, the piece
accumulated so far held in reverse. -/
def splitDotAux : List Char → List Char → List String
  | [], acc => [⟨acc.reverse⟩]
  | c :: cs, acc => if c = '.' then ⟨acc.reverse⟩ :: splitDotAux cs [] else splitDotAux cs (c :: acc)

/-- JS `s.split('.')`: the (possibly empty) pieces between the dots; the
empty string splits to `[""]`. -/
def splitOnDot (s : String) : List String :=
  splitDotAux s.data []

/-- Value of a list of decimal digit characters, most significant first. -/
def digitsToNat (cs : List Char) : Nat :=
  cs.foldl (fun a c => a * 10 + (c.toNat - 48)) 0

/-- JS `Number(s)` restricted to the strings produced by splitting an
address on `'.'`: the empty string converts to 0, a nonempty all-digit
string to its decimal value, anything else to NaN (`none`).  (Number's
further syntactic forms — signs, whitespace, hex, fractions — never arise
from the strings exercised in this development.) -/
def jsNumber (s : String) : Option Int :=
  match s.data with
  | [] => some 0
  | cs => if cs.all (fun c => c.isDigit) then some ((digitsToNat cs : Nat) : Int) else none

/-- Maximal leading run of decimal digits. -/
def takeDigits (cs : List Char) : List Char :=
  cs.takeWhile (fun c => c.isDigit)

/-- JS `parseInt(s)` (radix 10): an optional minus sign followed by the
maximal leading digit run; NaN (`none`) when no digits are found. -/
def jsParseInt (s : String) : Option Int :=
  match s.data with
  | '-' :: rest =>
    if takeDigits rest = [] then none else some (-(digitsToNat (takeDigits rest) : Int))
  | cs =>
    if takeDigits cs = [] then none else some ((digitsToNat (takeDigits cs) : Int))

/-- Helper for `removeFirstSlash`: drop the first `'/'` of a char list. -/
def removeFirstSlashAux : List Char → List Char
  | [] => []
  | c :: cs => if c = '/' then cs else c :: removeFirstSlashAux cs

/-- JS `mask.replace('/', '')`: string replace with a string pattern
replaces only the first occurrence. -/
def removeFirstSlash (s : String) : String :=
  ⟨removeFirstSlashAux s.data⟩

/-- ECMAScript ToUint32 of an integer: reduce modulo 2^32 into `[0, 2^32)`. -/
def toUint32 (n : Int) : Nat :=
  (n % 4294967296).toNat

/-- Re-center a value of `[0, 2^32)` into the signed Int32 range, the
result range of the JS bitwise operators. -/
def asInt32 (n : Nat) : Int :=
  if n < 2147483648 then (n : Int) else (n : Int) - 4294967296

/-- JS `a << k` for a known nonnegative shift operand: ToInt32 the left
operand, shift by `k mod 32`, keep the low 32 bits, signed result. -/
def jsShl (a : Int) (k : Nat) : Int :=
  asInt32 ((toUint32 a <<< (k % 32)) % 4294967296)

/-- JS `a & b`: ToInt32 both operands, bitwise and, signed result. -/
def jsAnd (a b : Int) : Int :=
  asInt32 ((toUint32 a).land (toUint32 b))

/-- JS `a | b`: ToInt32 both operands, bitwise or, signed result. -/
def jsOr (a b : Int) : Int :=
  asInt32 ((toUint32 a).lor (toUint32 b))

/-- ToInt32's treatment of NaN and undefined as an operand: both become 0. -/
def optVal (o : Option Int) : Int :=
  o.getD 0

/-- `ipToNumber(ip)` from traceroute.js:
`const parts = ip.split('.').map(Number);`
`return (parts[0] << 24) | (parts[1] << 16) | (parts[2] << 8) | parts[3];`
A missing part (`undefined`) and NaN both coerce to 0 under the bitwise
operators. -/
def ipToNumber (ip : String) : Int :=
  let parts := (splitOnDot ip).map jsNumber
  jsOr
    (jsOr
      (jsOr (jsShl (optVal (parts.getD 0 none)) 24) (jsShl (optVal (parts.getD 1 none)) 16))
      (jsShl (optVal (parts.getD 2 none)) 8))
    (optVal (parts.getD 3 none))

/-- The shift count of `(-1 << (32 - maskBits))` under JS semantics:
the count is `ToUint32(32 - maskBits) mod 32`, and `32 - NaN = NaN` whose
ToUint32 is 0. -/
def maskShiftCount (maskBits : Option Int) : Nat :=
  match maskBits with
  | none => 0
  | some n => toUint32 (32 - n) % 32

/-- `const maskNum = (-1 << (32 - maskBits)) >>> 0;` with
`maskBits = parseInt(mask.replace('/', ''))` — the `>>> 0` reads the bit
pattern back as an unsigned number. -/
def maskNumOf (mask : String) : Int :=
  ((toUint32 (jsShl (-1) (maskShiftCount (jsParseInt (removeFirstSlash mask))))) : Int)

/-- `isIPInNetwork(ip, network, mask)` from traceroute.js: falsy-argument
guard, then `(ipNum & maskNum) === (networkNum & maskNum)`.  Nothing in the
body can throw, so the `try`/`catch` never fires. -/
def isIPInNetwork (ip network mask : String) : Bool :=
  if ip = "" ∨ network = "" ∨ mask = "" then false
  else jsAnd (ipToNumber ip) (maskNumOf mask) == jsAnd (ipToNumber network) (maskNumOf mask)

/-- The parsed mask of a route: `parseInt(route.Mascara.replace('/', ''))`. -/
def maskBitsOf (r : Route) : Option Int :=
  jsParseInt (removeFirstSlash r.Mascara)

/-- JS `>` on two possibly-NaN numbers: false whenever either is NaN. -/
def jsGt : Option Int → Option Int → Bool
  | some a, some b => decide (b < a)
  | _, _ => false

/-- The reducer of `findRouteEntry`:
`currentMask > bestMask ? current : best`. -/
def routeReduceStep (best current : Route) : Route :=
  if jsGt (maskBitsOf current) (maskBitsOf best) then current else best

/-- The two filters of `findRouteEntry`: this equipment's routes, then the
ones whose network contains the destination address. -/
def deviceMatches (equipmentName destIP : String) (routingTable : List Route) : List Route :=
  (routingTable.filter (fun route => route.Equipo == equipmentName)).filter
    (fun route => isIPInNetwork destIP route.IP_Destino route.Mascara)

/-- `findRouteEntry(equipmentName, destIP, routingTable)` from
traceroute.js: filter by equipment, filter by membership, and `reduce` with
no initial value (so the first match seeds the fold) keeping the route with
the larger parsed mask, the earlier one on ties. -/
def findRouteEntry (equipmentName destIP : String) (routingTable : List Route) : Option Route :=
  match deviceMatches equipmentName destIP routingTable with
  | [] => none
  | m :: ms => some (ms.foldl routeReduceStep m)

/-- JS `String.prototype.toLowerCase` (ASCII-faithful). -/
def jsToLower (s : String) : String :=
  ⟨s.data.map Char.toLower⟩

/-- `findEquipmentByGateway(gateway, routingTable, currentEquipment)` from
traceroute.js: first route of the table belonging to another equipment,
whose gateway field is the literal `'directo'` (case-insensitively), and
whose network contains the gateway address. -/
def findEquipmentByGateway (gateway : String) (routingTable : List Route)
    (currentEquipment : String) : Option String :=
  (routingTable.find? (fun route =>
    route.Equipo != currentEquipment &&
    jsToLower route.Gateway == "directo" &&
    isIPInNetwork gateway route.IP_Destino route.Mascara)).map (fun route => route.Equipo)

/-- The `for (let hopCount = 0; hopCount < MAX_HOPS; hopCount++)` loop of
`executeTraceroute`, with the remaining iteration budget as fuel (initially
30); falling out of the loop returns the hop-limit failure.  The visited
set is modelled by a list used only through membership. -/
def traceLoop (sourceEquipment sourceIP destIP : String) (routingTable : List Route) :
    Nat → String → List String → List Hop → TraceResult
  | 0, _, _, hops =>
    ⟨false, some "Se excedió el límite de 30 saltos", hops,
      sourceEquipment, sourceIP, destIP⟩
  | fuel + 1, currentEquipment, visitedEquipment, hops =>
    if currentEquipment ∈ visitedEquipment then
      ⟨false, some ("Loop infinito detectado en el equipo \"" ++ currentEquipment ++ "\""),
        hops, sourceEquipment, sourceIP, destIP⟩
    else
      match findRouteEntry currentEquipment destIP routingTable with
      | none =>
        ⟨false, some ("No existe ruta hacia " ++ destIP ++ " desde el equipo \"" ++
          currentEquipment ++ "\""), hops, sourceEquipment, sourceIP, destIP⟩
      | some routeEntry =>
        if jsToLower routeEntry.Gateway = "directo" then
          ⟨true, none,
            hops ++ [⟨currentEquipment, routeEntry.IP_Destino ++ routeEntry.Mascara,
              "directo", none⟩],
            sourceEquipment, sourceIP, destIP⟩
        else
          match findEquipmentByGateway routeEntry.Gateway routingTable currentEquipment with
          | none =>
            ⟨false, some ("No se puede resolver el gateway " ++ routeEntry.Gateway ++
              " desde \"" ++ currentEquipment ++ "\""), hops, sourceEquipment, sourceIP, destIP⟩
          | some nextEquipment =>
            traceLoop sourceEquipment sourceIP destIP routingTable fuel nextEquipment
              (currentEquipment :: visitedEquipment)
              (hops ++ [⟨currentEquipment, routeEntry.IP_Destino ++ routeEntry.Mascara,
                routeEntry.Gateway, some nextEquipment⟩])

/-- `executeTraceroute(sourceEquipment, sourceIP, destIP, routingTable)`
from traceroute.js: the two fail-fast validations followed by the bounded
loop with `MAX_HOPS = 30`.  Nothing inside the loop can throw, so the
surrounding `try`/`catch` never fires. -/
def executeTraceroute (sourceEquipment sourceIP destIP : String)
    (routingTable : List Route) : TraceResult :=
  if sourceEquipment = "" ∨ sourceIP = "" ∨ destIP = "" ∨ routingTable = [] then
    ⟨false, some "Parámetros inválidos o tabla de ruteo vacía", [],
      sourceEquipment, sourceIP, destIP⟩
  else if routingTable.any (fun r => r.Equipo == sourceEquipment) = false then
    ⟨false, some ("El equipo \"" ++ sourceEquipment ++ "\" no existe en la tabla de ruteo"), [],
      sourceEquipment, sourceIP, destIP⟩
  else
    traceLoop sourceEquipment sourceIP destIP routingTable 30 sourceEquipment [] []

/-- `validateIP(ip)` from traceroute.js: the regex
`^(\d\x7b1,3\x7d\.)\x7b3\x7d\d\x7b1,3\x7d$` (four dot-separated groups of
one to three digits) followed by the 0–255 range check on each part. -/
def validateIP (ip : String) : Bool :=
  let parts := splitOnDot ip
  (parts.length == 4 &&
    parts.all (fun p => 1 ≤ p.data.length && p.data.length ≤ 3 &&
      p.data.all (fun c => c.isDigit))) &&
  parts.all (fun p =>
    match jsParseInt p with
    | some n => 0 ≤ n && n ≤ 255
    | none => false)

/-- The end-to-end scenario table of the specification (§8): device A
reaches `192.168.1.0/24` through gateway `10.0.1.2`, device B is directly
connected to it. -/
def endToEndTable : List Route :=
  [⟨"A", "10.0.1.0", "/24", "directo"⟩,
   ⟨"A", "192.168.1.0", "/24", "10.0.1.2"⟩,
   ⟨"B", "10.0.1.0", "/24", "directo"⟩,
   ⟨"B", "192.168.1.0", "/24", "directo"⟩]

/-- The unresolved-gateway scenario table of the specification (§8): the
entry at A points to gateway `10.0.2.2`, which no other device reaches
through a directly-connected record. -/
def unresolvedTable : List Route :=
  [⟨"A", "10.0.1.0", "/24", "directo"⟩,
   ⟨"A", "192.168.1.0", "/24", "10.0.2.2"⟩,
   ⟨"B", "10.0.1.0", "/24", "directo"⟩,
   ⟨"B", "192.168.1.0", "/24", "directo"⟩]

/-- A two-device routing loop towards `192.168.5.0/24`: A forwards through
a gateway on B's directly-connected network, and B forwards back through a
gateway on A's. -/
def loopTable : List Route :=
  [⟨"A", "10.0.1.0", "/24", "directo"⟩,
   ⟨"A", "192.168.5.0", "/24", "10.0.2.1"⟩,
   ⟨"B", "10.0.2.0", "/24", "directo"⟩,
   ⟨"B", "192.168.5.0", "/24", "10.0.1.1"⟩]

/-- A chain of 31 distinct devices `R0 … R30`: each `Ri` is directly
connected to `10.0.i.0/24`, each of `R0 … R29` forwards the destination
network `192.168.1.0/24` to the gateway `10.0.(i+1).1` sitting on the next
device's directly-connected network, and `R30` is directly connected to the
destination network. -/
def chainTable : List Route :=
  ((List.range 31).map (fun i => (⟨s!"R{i}", s!"10.0.{i}.0", "/24", "directo"⟩ : Route))) ++
  ((List.range 30).map (fun i =>
    (⟨s!"R{i}", "192.168.1.0", "/24", s!"10.0.{i + 1}.1"⟩ : Route))) ++
  [⟨"R30", "192.168.1.0", "/24", "directo"⟩]

/-- A device with a /16 record first and a more specific /24 record second,
both matching `192.168.1.50`. -/
def twoPrefixTable : List Route :=
  [⟨"A", "192.168.0.0", "/16", "10.0.0.1"⟩,
   ⟨"A", "192.168.1.0", "/24", "10.0.0.2"⟩]

/-- The numeric mask of a route, with NaN read as 0 — only ever used under
a hypothesis that rules the NaN case out. -/
def maskVal (r : Route) : Int :=
  (maskBitsOf r).getD 0

/-- Shape invariant of a `traceLoop` result whose incoming accumulator
holds only forwarding hops: a failure's hops are all forwarding hops, and a
success's hops are forwarding hops followed by one terminal hop. -/
def goodResult (res : TraceResult) : Prop :=
  (res.success = false →
    ∀ h ∈ res.hops, h.nextEquipment ≠ none ∧ h.gateway ≠ "directo") ∧
  (res.success = true → ∃ pre term, res.hops = pre ++ [term] ∧
    (∀ h ∈ pre, h.nextEquipment ≠ none ∧ h.gateway ≠ "directo") ∧
    term.nextEquipment = none ∧ term.gateway = "directo")

/-- Claim C1: the spec says a `prefixLength` of 0 matches every
syntactically valid address, but the code computes the mask as
`(-1 << (32 - 0)) >>> 0` and the JS shift count is reduced modulo 32, so a
/0 mask is the full /32 mask: the syntactically valid address `1.2.3.4` is
not matched by the network `0.0.0.0/0`. -/
theorem c1_prefix_zero_not_match_all :
    validateIP "1.2.3.4" = true ∧ validateIP "0.0.0.0" = true ∧
    isIPInNetwork "1.2.3.4" "0.0.0.0" "/0" = false := by
  decide

/-- Claim C6 counterexample: the malformed address `"abc"` is not rejected:
`Number("abc")` is NaN, the bitwise operators coerce NaN to 0, so `"abc"`
behaves as `0.0.0.0` and `isIPInNetwork "abc" "0.0.0.0" "/32"` returns
true, not false. -/
theorem c6_malformed_counterexample :
    validateIP "abc" = false ∧ isIPInNetwork "abc" "0.0.0.0" "/32" = true := by
  decide

/-- Claim C6 as amended: `isIPInNetwork` is a total function (it never
raises), and whenever one of its arguments is the empty string it returns
false; non-empty malformed addresses are instead coerced numerically and
may match. -/
theorem c6_empty_argument_false (ip network mask : String)
    (h : ip = "" ∨ network = "" ∨ mask = "") :
    isIPInNetwork ip network mask = false := by
  unfold isIPInNetwork
  exact if_pos h

/-- Witness for `c6_empty_argument_false` at a concrete input. -/
theorem c6_empty_argument_false_witness :
    isIPInNetwork "" "192.168.1.0" "/24" = false :=
  c6_empty_argument_false "" "192.168.1.0" "/24" (Or.inl rfl)

/-- Claim C7 counterexample: a `prefixLength` outside 0–32 is not treated
as a non-match: with mask `/33` the JS shift count `32 - 33` is reduced
modulo 32 to 31, producing the /1 mask, and `0.0.0.1` is matched by
`0.0.0.0/33`. -/
theorem c7_out_of_range_counterexample :
    isIPInNetwork "0.0.0.1" "0.0.0.0" "/33" = true := by
  decide

/-- Claim C7 as amended: an out-of-range `prefixLength` does not raise, but
it is not a non-match either: the shift count of the mask computation is
reduced modulo 32, so the mask for /33 equals the mask for /1 and the two
membership tests agree on every pair of addresses. -/
theorem c7_mask33_behaves_as_mask1 (ip network : String) :
    isIPInNetwork ip network "/33" = isIPInNetwork ip network "/1" := by
  have hm : maskNumOf "/33" = maskNumOf "/1" := by decide
  simp only [isIPInNetwork, hm]
  have h33 : ("/33" : String) ≠ "" := by decide
  have h1 : ("/1" : String) ≠ "" := by decide
  by_cases hip : ip = "" <;> by_cases hnet : network = "" <;>
    simp [hip, hnet, h33, h1]

/-- Claim C8: both validations run before any hop iteration and return an
empty hop list: an empty `sourceEquipment`, `sourceIP` or `destIP`, or an
empty table, yields the invalid-parameters failure, and otherwise a
`sourceEquipment` that is the `Equipo` of no record yields the
unknown-equipment failure. -/
theorem c8_fail_fast (se sip dip : String) (t : List Route) :
    ((se = "" ∨ sip = "" ∨ dip = "" ∨ t = []) →
      executeTraceroute se sip dip t =
        ⟨false, some "Parámetros inválidos o tabla de ruteo vacía", [], se, sip, dip⟩) ∧
    (¬ (se = "" ∨ sip = "" ∨ dip = "" ∨ t = []) → (∀ r ∈ t, r.Equipo ≠ se) →
      executeTraceroute se sip dip t =
        ⟨false, some ("El equipo \"" ++ se ++ "\" no existe en la tabla de ruteo"),
          [], se, sip, dip⟩) := by
  constructor
  · intro h
    unfold executeTraceroute
    exact if_pos h
  · intro h hnone
    have hany : t.any (fun r => r.Equipo == se) = false := by
      simp only [List.any_eq_false]
      intro r hr
      simpa using hnone r hr
    unfold executeTraceroute
    rw [if_neg h, hany]
    simp

/-- Witness for `c8_fail_fast`: the empty start device trips the
invalid-parameters failure, and a start device absent from the table trips
the unknown-equipment failure, both with zero hops. -/
theorem c8_fail_fast_witness :
    executeTraceroute "" "10.0.1.9" "192.168.1.50" endToEndTable =
      ⟨false, some "Parámetros inválidos o tabla de ruteo vacía", [],
        "", "10.0.1.9", "192.168.1.50"⟩ ∧
    executeTraceroute "Z" "10.0.1.9" "192.168.1.50" endToEndTable =
      ⟨false, some ("El equipo \"" ++ "Z" ++ "\" no existe en la tabla de ruteo"),
        [], "Z", "10.0.1.9", "192.168.1.50"⟩ :=
  ⟨(c8_fail_fast "" "10.0.1.9" "192.168.1.50" endToEndTable).1 (Or.inl rfl),
   (c8_fail_fast "Z" "10.0.1.9" "192.168.1.50" endToEndTable).2 (by decide) (by decide)⟩

/-- Every `traceLoop` result extends the incoming hop accumulator: no
branch of the loop ever discards the hops accumulated so far. -/
theorem traceLoop_hops_extend (se sip dip : String) (t : List Route) :
    ∀ fuel cur vis hops,
      ∃ rest, (traceLoop se sip dip t fuel cur vis hops).hops = hops ++ rest := by
  intro fuel
  induction fuel with
  | zero =>
    intro cur vis hops
    exact ⟨[], by simp [traceLoop]⟩
  | succ n ih =>
    intro cur vis hops
    simp only [traceLoop]
    split
    · exact ⟨[], by simp⟩
    · split
      · exact ⟨[], by simp⟩
      · rename_i routeEntry _
        split
        · exact ⟨[⟨cur, routeEntry.IP_Destino ++ routeEntry.Mascara, "directo", none⟩],
            by simp⟩
        · split
          · exact ⟨[], by simp⟩
          · rename_i nextEquipment _
            obtain ⟨rest, hrest⟩ := ih nextEquipment (cur :: vis)
              (hops ++ [⟨cur, routeEntry.IP_Destino ++ routeEntry.Mascara,
                routeEntry.Gateway, some nextEquipment⟩])
            exact ⟨_ :: rest, by rw [hrest, List.append_assoc]; rfl⟩

/-- Claim C5: every branch of the loop returns the hops accumulated up to
that point (the result's hop list always extends the accumulator), and on
the spec's unresolved-gateway scenario — the table whose entry at A points
to the gateway `10.0.2.2` that no other device reaches through a
directly-connected record — the result is the unresolved-gateway failure
with zero accumulated hops. -/
theorem c5_failure_keeps_hops :
    (∀ se sip dip (t : List Route) fuel cur vis hops,
      ∃ rest, (traceLoop se sip dip t fuel cur vis hops).hops = hops ++ rest) ∧
    executeTraceroute "A" "192.168.1.1" "192.168.1.50" unresolvedTable =
      ⟨false, some "No se puede resolver el gateway 10.0.2.2 desde \"A\"", [],
        "A", "192.168.1.1", "192.168.1.50"⟩ := by
  constructor
  · intro se sip dip t
    exact traceLoop_hops_extend se sip dip t
  · decide

/-- Each unit of fuel adds at most one hop to the accumulator. -/
theorem traceLoop_hops_length_le (se sip dip : String) (t : List Route) :
    ∀ fuel cur vis hops,
      (traceLoop se sip dip t fuel cur vis hops).hops.length ≤ hops.length + fuel := by
  intro fuel
  induction fuel with
  | zero =>
    intro cur vis hops
    simp [traceLoop]
  | succ n ih =>
    intro cur vis hops
    simp only [traceLoop]
    split
    · simp
    · split
      · simp
      · split
        · simp
        · split
          · simp
          · rename_i nextEquipment _
            calc (traceLoop se sip dip t n nextEquipment (cur :: vis) _).hops.length
                ≤ _ + n := ih nextEquipment (cur :: vis) _
              _ ≤ hops.length + (n + 1) := by simp; omega

/-- Claim C3: every run of `executeTraceroute` accumulates at most 30 hops
(`MAX_HOPS = 30`), and on the chain of 31 distinct devices each forwarding
the destination network to the next, the run fails with the hop-limit
message after exactly 30 accumulated hops. -/
theorem c3_hop_limit :
    (∀ se sip dip (t : List Route), (executeTraceroute se sip dip t).hops.length ≤ 30) ∧
    ((chainTable.map (fun r => r.Equipo)).dedup.length = 31 ∧
      (executeTraceroute "R0" "10.0.0.9" "192.168.1.50" chainTable).success = false ∧
      (executeTraceroute "R0" "10.0.0.9" "192.168.1.50" chainTable).error =
        some "Se excedió el límite de 30 saltos" ∧
      (executeTraceroute "R0" "10.0.0.9" "192.168.1.50" chainTable).hops.length = 30) := by
  constructor
  · intro se sip dip t
    unfold executeTraceroute
    split
    · simp
    · split
      · simp
      · simpa using traceLoop_hops_length_le se sip dip t 30 se [] []
  · decide

/-- The loop never reads `sourceIP`: changing it changes only the reported
`sourceIP` field of the result. -/
theorem traceLoop_sourceIP_only_reported (se dip : String) (t : List Route) (s1 s2 : String) :
    ∀ fuel cur vis hops,
      traceLoop se s1 dip t fuel cur vis hops =
        { traceLoop se s2 dip t fuel cur vis hops with sourceIP := s1 } := by
  intro fuel
  induction fuel with
  | zero =>
    intro cur vis hops
    rfl
  | succ n ih =>
    intro cur vis hops
    simp only [traceLoop]
    split
    · rfl
    · split
      · rfl
      · split
        · rfl
        · split
          · rfl
          · rename_i nextEquipment _
            exact ih nextEquipment (cur :: vis) _

/-- Claim C10: for fixed start device, destination and table, two runs with
different non-empty source addresses agree on outcome, error, hops and the
other reporting fields, differing only in the reported `sourceIP`. -/
theorem c10_sourceIP_not_matched (se dip : String) (t : List Route) (s1 s2 : String)
    (h1 : s1 ≠ "") (h2 : s2 ≠ "") :
    executeTraceroute se s1 dip t = { executeTraceroute se s2 dip t with sourceIP := s1 } := by
  unfold executeTraceroute
  by_cases hrest : se = "" ∨ dip = "" ∨ t = []
  · have c1 : se = "" ∨ s1 = "" ∨ dip = "" ∨ t = [] := by tauto
    have c2 : se = "" ∨ s2 = "" ∨ dip = "" ∨ t = [] := by tauto
    rw [if_pos c1, if_pos c2]
  · have c1 : ¬ (se = "" ∨ s1 = "" ∨ dip = "" ∨ t = []) := by tauto
    have c2 : ¬ (se = "" ∨ s2 = "" ∨ dip = "" ∨ t = []) := by tauto
    rw [if_neg c1, if_neg c2]
    split
    · rfl
    · exact traceLoop_sourceIP_only_reported se dip t s1 s2 30 se [] []

/-- Witness for `c10_sourceIP_not_matched` on the end-to-end table with two
different source addresses. -/
theorem c10_sourceIP_not_matched_witness :
    executeTraceroute "A" "9.9.9.9" "192.168.1.50" endToEndTable =
      { executeTraceroute "A" "192.168.1.1" "192.168.1.50" endToEndTable with
        sourceIP := "9.9.9.9" } :=
  c10_sourceIP_not_matched "A" "192.168.1.50" endToEndTable "9.9.9.9" "192.168.1.1"
    (by decide) (by decide)

/-- `findEquipmentByGateway` scans with the current equipment excluded, so
the equipment it returns is never the current one. -/
theorem findEquipmentByGateway_ne_current (g : String) (t : List Route) (cur e : String)
    (h : findEquipmentByGateway g t cur = some e) : e ≠ cur := by
  unfold findEquipmentByGateway at h
  obtain ⟨r, hr, hre⟩ := Option.map_eq_some'.mp h
  have hp := List.find?_some hr
  simp only [Bool.and_eq_true, bne_iff_ne] at hp
  rw [← hre]
  exact hp.1.1

/-- The fold of `findRouteEntry` returns its seed or one of the folded
elements. -/
theorem foldl_routeReduceStep_mem (ms : List Route) :
    ∀ m, ms.foldl routeReduceStep m ∈ m :: ms := by
  induction ms with
  | nil =>
    intro m
    simp
  | cons c cs ih =>
    intro m
    simp only [List.foldl_cons]
    have hc : routeReduceStep m c = m ∨ routeReduceStep m c = c := by
      unfold routeReduceStep
      split
      · exact Or.inr rfl
      · exact Or.inl rfl
    rcases List.mem_cons.mp (ih (routeReduceStep m c)) with h | h
    · rcases hc with hc | hc
      · rw [h, hc]
        exact List.mem_cons_self _ _
      · rw [h, hc]
        exact List.mem_cons_of_mem _ (List.mem_cons_self _ _)
    · exact List.mem_cons_of_mem _ (List.mem_cons_of_mem _ h)

/-- A route returned by `findRouteEntry` is a record of the table owned by
the requested equipment whose network contains the destination. -/
theorem findRouteEntry_mem (e d : String) (t : List Route) (r : Route)
    (h : findRouteEntry e d t = some r) :
    r ∈ t ∧ r.Equipo = e ∧ isIPInNetwork d r.IP_Destino r.Mascara = true := by
  unfold findRouteEntry at h
  cases hm : deviceMatches e d t with
  | nil =>
    rw [hm] at h
    cases h
  | cons m ms =>
    rw [hm] at h
    have hr : r ∈ deviceMatches e d t := by
      rw [hm]
      injection h with h'
      rw [← h']
      exact foldl_routeReduceStep_mem ms m
    unfold deviceMatches at hr
    have h2 := List.mem_filter.mp hr
    have h3 := List.mem_filter.mp h2.1
    refine ⟨h3.1, by simpa using h3.2, h2.2⟩

/-- The loop-detected message never coincides with the hop-limit message
(their lengths differ for every equipment name). -/
theorem loopMsg_ne_limitMsg (A : String) :
    ("Loop infinito detectado en el equipo \"" ++ A ++ "\"") ≠
      "Se excedió el límite de 30 saltos" := by
  intro h
  have hl := congrArg String.length h
  simp only [String.length_append] at hl
  have h1 : ("Loop infinito detectado en el equipo \"" : String).length = 38 := by decide
  have h2 : ("\"" : String).length = 1 := by decide
  have h3 : ("Se excedió el límite de 30 saltos" : String).length = 33 := by decide
  rw [h1, h2, h3] at hl
  omega

/-- Claim C4: whenever device A's selected route for the destination
resolves through `findEquipmentByGateway` to a device B, and B's selected
route for the same destination resolves back to A, the run starting at A
detects the loop: it fails with the loop message for A — never the
hop-limit message — after at most two accumulated hops. -/
theorem c4_two_device_loop (t : List Route) (A B sip dest : String) (rA rB : Route)
    (hA : A ≠ "") (hs : sip ≠ "") (hd : dest ≠ "")
    (h1 : findRouteEntry A dest t = some rA)
    (h1g : ¬ jsToLower rA.Gateway = "directo")
    (h2 : findEquipmentByGateway rA.Gateway t A = some B)
    (h3 : findRouteEntry B dest t = some rB)
    (h3g : ¬ jsToLower rB.Gateway = "directo")
    (h4 : findEquipmentByGateway rB.Gateway t B = some A) :
    (executeTraceroute A sip dest t).success = false ∧
    (executeTraceroute A sip dest t).error =
      some ("Loop infinito detectado en el equipo \"" ++ A ++ "\"") ∧
    (executeTraceroute A sip dest t).error ≠ some "Se excedió el límite de 30 saltos" ∧
    (executeTraceroute A sip dest t).hops.length ≤ 2 := by
  have hBA : B ≠ A := findEquipmentByGateway_ne_current rA.Gateway t A B h2
  have hmem := findRouteEntry_mem A dest t rA h1
  have ht : t ≠ [] := by
    intro he
    rw [he] at hmem
    exact (List.not_mem_nil rA) hmem.1
  have hc : ¬ (A = "" ∨ sip = "" ∨ dest = "" ∨ t = []) := by
    push_neg
    exact ⟨hA, hs, hd, ht⟩
  have hany : t.any (fun r => r.Equipo == A) = true :=
    List.any_eq_true.mpr ⟨rA, hmem.1, by simp [hmem.2.1]⟩
  have key : executeTraceroute A sip dest t =
      ⟨false, some ("Loop infinito detectado en el equipo \"" ++ A ++ "\""),
        [⟨A, rA.IP_Destino ++ rA.Mascara, rA.Gateway, some B⟩,
         ⟨B, rB.IP_Destino ++ rB.Mascara, rB.Gateway, some A⟩], A, sip, dest⟩ := by
    unfold executeTraceroute
    rw [if_neg hc, hany]
    simp only [Bool.true_eq_false, if_false]
    simp only [traceLoop, h1, h2, h3, h4]
    rw [if_neg (List.not_mem_nil A)]
    simp only [if_neg h1g]
    rw [if_neg (by simp [hBA] : ¬ B ∈ [A])]
    simp only [if_neg h3g]
    rw [if_pos (by simp : A ∈ [B, A])]
    simp
  rw [key]
  refine ⟨rfl, rfl, ?_, by simp⟩
  simp only [ne_eq, Option.some.injEq]
  exact loopMsg_ne_limitMsg A

/-- Witness for `c4_two_device_loop` on the concrete two-device loop
table. -/
theorem c4_two_device_loop_witness :
    (executeTraceroute "A" "10.0.1.9" "192.168.5.7" loopTable).success = false ∧
    (executeTraceroute "A" "10.0.1.9" "192.168.5.7" loopTable).error =
      some ("Loop infinito detectado en el equipo \"" ++ "A" ++ "\"") ∧
    (executeTraceroute "A" "10.0.1.9" "192.168.5.7" loopTable).error ≠
      some "Se excedió el límite de 30 saltos" ∧
    (executeTraceroute "A" "10.0.1.9" "192.168.5.7" loopTable).hops.length ≤ 2 :=
  c4_two_device_loop loopTable "A" "B" "10.0.1.9" "192.168.5.7"
    ⟨"A", "192.168.5.0", "/24", "10.0.2.1"⟩ ⟨"B", "192.168.5.0", "/24", "10.0.1.1"⟩
    (by decide) (by decide) (by decide) (by decide) (by decide) (by decide)
    (by decide) (by decide) (by decide)

/-- On two parsed masks the JS comparison of `findRouteEntry`'s reducer is
the strict order on their values. -/
theorem jsGt_eq_decide (a b : Route)
    (ha : (maskBitsOf a).isSome) (hb : (maskBitsOf b).isSome) :
    jsGt (maskBitsOf a) (maskBitsOf b) = decide (maskVal b < maskVal a) := by
  obtain ⟨x, hx⟩ := Option.isSome_iff_exists.mp ha
  obtain ⟨y, hy⟩ := Option.isSome_iff_exists.mp hb
  rw [maskVal, maskVal, hx, hy]
  rfl

/-- The fold of `findRouteEntry` computes the first element of maximal
parsed mask, provided every folded mask parses: the result splits the list
into a strictly-smaller prefix, the result, and a not-larger remainder. -/
theorem foldl_routeReduceStep_firstMax (ms : List Route) :
    ∀ m : Route, (∀ x ∈ m :: ms, (maskBitsOf x).isSome) →
    ∃ pre post, m :: ms = pre ++ (ms.foldl routeReduceStep m) :: post ∧
      (∀ x ∈ pre, maskVal x < maskVal (ms.foldl routeReduceStep m)) ∧
      ∀ x ∈ m :: ms, maskVal x ≤ maskVal (ms.foldl routeReduceStep m) := by
  induction ms with
  | nil =>
    intro m _
    refine ⟨[], [], rfl, by simp, ?_⟩
    intro x hx
    rw [List.mem_singleton.mp hx]
    exact le_refl _
  | cons c cs ih =>
    intro m hall
    have hsm : (maskBitsOf m).isSome := hall m (List.mem_cons_self _ _)
    have hsc : (maskBitsOf c).isSome := hall c (by simp)
    rw [List.foldl_cons]
    by_cases hgt : maskVal m < maskVal c
    · have hstep : routeReduceStep m c = c := by
        unfold routeReduceStep
        rw [jsGt_eq_decide c m hsc hsm]
        simp [hgt]
      have hall' : ∀ x ∈ c :: cs, (maskBitsOf x).isSome :=
        fun x hx => hall x (List.mem_cons_of_mem m hx)
      obtain ⟨pre, post, hdec, hpre, hub⟩ := ih c hall'
      rw [hstep]
      refine ⟨m :: pre, post, ?_, ?_, ?_⟩
      · simpa using congrArg (List.cons m) hdec
      · intro x hx
        rcases List.mem_cons.mp hx with hx | hx
        · rw [hx]
          exact lt_of_lt_of_le hgt (hub c (List.mem_cons_self _ _))
        · exact hpre x hx
      · intro x hx
        rcases List.mem_cons.mp hx with hx | hx
        · rw [hx]
          exact le_of_lt (lt_of_lt_of_le hgt (hub c (List.mem_cons_self _ _)))
        · exact hub x hx
    · have hle : maskVal c ≤ maskVal m := not_lt.mp hgt
      have hstep : routeReduceStep m c = m := by
        unfold routeReduceStep
        rw [jsGt_eq_decide c m hsc hsm]
        simp [hgt]
      have hall' : ∀ x ∈ m :: cs, (maskBitsOf x).isSome := by
        intro x hx
        rcases List.mem_cons.mp hx with hx | hx
        · rw [hx]
          exact hsm
        · exact hall x (List.mem_cons_of_mem m (List.mem_cons_of_mem c hx))
      obtain ⟨pre, post, hdec, hpre, hub⟩ := ih m hall'
      rw [hstep]
      set R := cs.foldl routeReduceStep m with hR
      cases pre with
      | nil =>
        simp only [List.nil_append] at hdec
        have hm : m = R := (List.cons.injEq _ _ _ _).mp hdec |>.1
        refine ⟨[], c :: cs, by rw [← hm]; simp, by simp, ?_⟩
        intro x hx
        rcases List.mem_cons.mp hx with hx | hx
        · rw [hx]
          exact hub m (List.mem_cons_self _ _)
        · rcases List.mem_cons.mp hx with hx' | hx'
          · rw [hx']
            exact le_trans hle (hub m (List.mem_cons_self _ _))
          · exact hub x (List.mem_cons_of_mem m hx')
      | cons p pre' =>
        simp only [List.cons_append] at hdec
        have hinj := (List.cons.injEq _ _ _ _).mp hdec
        have hpm : p = m := hinj.1.symm
        have hcs : cs = pre' ++ R :: post := hinj.2
        have hmpre : maskVal m < maskVal R := by
          have := hpre p (List.mem_cons_self _ _)
          rwa [hpm] at this
        refine ⟨m :: c :: pre', post, ?_, ?_, ?_⟩
        · rw [hcs]
          simp
        · intro x hx
          rcases List.mem_cons.mp hx with hx | hx
          · rw [hx]
            exact hmpre
          · rcases List.mem_cons.mp hx with hx' | hx'
            · rw [hx']
              exact lt_of_le_of_lt hle hmpre
            · exact hpre x (List.mem_cons_of_mem p hx')
        · intro x hx
          rcases List.mem_cons.mp hx with hx | hx
          · rw [hx]
            exact hub m (List.mem_cons_self _ _)
          · rcases List.mem_cons.mp hx with hx' | hx'
            · rw [hx']
              exact le_trans hle (hub m (List.mem_cons_self _ _))
            · exact hub x (List.mem_cons_of_mem m hx')

/-- Claim C2: when every matching record's mask parses, the record returned
by `findRouteEntry` is a matching record of maximal `prefixLength`, and it
is the first such record in table order: every match before it is strictly
less specific, and no match anywhere is more specific. -/
theorem c2_longest_match_first (e d : String) (t : List Route) (r : Route)
    (hwf : ∀ x ∈ deviceMatches e d t, (maskBitsOf x).isSome)
    (hr : findRouteEntry e d t = some r) :
    ∃ pre post, deviceMatches e d t = pre ++ r :: post ∧
      (∀ x ∈ pre, maskVal x < maskVal r) ∧
      ∀ x ∈ deviceMatches e d t, maskVal x ≤ maskVal r := by
  unfold findRouteEntry at hr
  cases hm : deviceMatches e d t with
  | nil =>
    rw [hm] at hr
    cases hr
  | cons m ms =>
    rw [hm] at hr hwf
    injection hr with hr'
    rw [← hr']
    exact foldl_routeReduceStep_firstMax ms m hwf

/-- Witness for `c2_longest_match_first`: with a /16 record first and a /24
record second, both matching `192.168.1.50` at device A, the /24 record is
selected, the /16 record sits strictly before it, and no match is more
specific. -/
theorem c2_longest_match_first_witness :
    ∃ pre post, deviceMatches "A" "192.168.1.50" twoPrefixTable =
        pre ++ (⟨"A", "192.168.1.0", "/24", "10.0.0.2"⟩ : Route) :: post ∧
      (∀ x ∈ pre, maskVal x < maskVal (⟨"A", "192.168.1.0", "/24", "10.0.0.2"⟩ : Route)) ∧
      ∀ x ∈ deviceMatches "A" "192.168.1.50" twoPrefixTable,
        maskVal x ≤ maskVal (⟨"A", "192.168.1.0", "/24", "10.0.0.2"⟩ : Route) :=
  c2_longest_match_first "A" "192.168.1.50" twoPrefixTable
    ⟨"A", "192.168.1.0", "/24", "10.0.0.2"⟩ (by decide) (by decide)

/-- The literal `"directo"` is fixed by `jsToLower`, so a gateway whose
lower-casing differs from `"directo"` differs from it already. -/
theorem ne_directo_of_toLower (g : String) (h : ¬ jsToLower g = "directo") : g ≠ "directo" := by
  intro hg
  rw [hg] at h
  exact h rfl

/-- If the accumulator holds only forwarding hops, every `traceLoop` result
satisfies `goodResult`: failures return only forwarding hops, successes
return forwarding hops capped by one terminal hop. -/
theorem traceLoop_good (se sip dip : String) (t : List Route) :
    ∀ fuel cur vis hops,
      (∀ h ∈ hops, h.nextEquipment ≠ none ∧ h.gateway ≠ "directo") →
      goodResult (traceLoop se sip dip t fuel cur vis hops) := by
  intro fuel
  induction fuel with
  | zero =>
    intro cur vis hops hacc
    exact ⟨fun _ h hh => hacc h hh, fun hs => Bool.noConfusion hs⟩
  | succ n ih =>
    intro cur vis hops hacc
    simp only [traceLoop]
    split
    · exact ⟨fun _ h hh => hacc h hh, fun hs => Bool.noConfusion hs⟩
    · split
      · exact ⟨fun _ h hh => hacc h hh, fun hs => Bool.noConfusion hs⟩
      · rename_i routeEntry _
        split
        · exact ⟨fun hs => Bool.noConfusion hs, fun _ => ⟨hops, _, rfl, hacc, rfl, rfl⟩⟩
        · rename_i hnd
          split
          · exact ⟨fun _ h hh => hacc h hh, fun hs => Bool.noConfusion hs⟩
          · rename_i nextEquipment _
            apply ih
            intro h hh
            rcases List.mem_append.mp hh with hh | hh
            · exact hacc h hh
            · rw [List.mem_singleton.mp hh]
              exact ⟨by simp, ne_directo_of_toLower routeEntry.Gateway hnd⟩

/-- Every result of `executeTraceroute` satisfies `goodResult` (both
fail-fast branches return no hops at all). -/
theorem executeTraceroute_good (se sip dip : String) (t : List Route) :
    goodResult (executeTraceroute se sip dip t) := by
  unfold executeTraceroute
  split
  · exact ⟨fun _ h hh => absurd hh (List.not_mem_nil h), fun hs => Bool.noConfusion hs⟩
  · split
    · exact ⟨fun _ h hh => absurd hh (List.not_mem_nil h), fun hs => Bool.noConfusion hs⟩
    · exact traceLoop_good se sip dip t 30 se [] [] (fun h hh => absurd hh (List.not_mem_nil h))

/-- Claim C9: in every result of `executeTraceroute`, a hop carries
`nextEquipment = none` exactly when its gateway is the directly-connected
sentinel `"directo"`, and such a terminal hop only occurs as the last hop
of a successful result — no failure result contains one. -/
theorem c9_terminal_hop (se sip dip : String) (t : List Route) :
    ∀ h ∈ (executeTraceroute se sip dip t).hops,
      (h.nextEquipment = none ↔ h.gateway = "directo") ∧
      (h.nextEquipment = none →
        (executeTraceroute se sip dip t).success = true ∧
        (executeTraceroute se sip dip t).hops.getLast? = some h) := by
  intro h hh
  obtain ⟨hfail, hsucc⟩ := executeTraceroute_good se sip dip t
  cases hs : (executeTraceroute se sip dip t).success with
  | false =>
    obtain ⟨hn, hg⟩ := hfail hs h hh
    exact ⟨⟨fun hn' => absurd hn' hn, fun hg' => absurd hg' hg⟩, fun hn' => absurd hn' hn⟩
  | true =>
    obtain ⟨pre, term, hdec, hpre, htn, htg⟩ := hsucc hs
    rw [hdec] at hh
    rcases List.mem_append.mp hh with hh' | hh'
    · obtain ⟨hn, hg⟩ := hpre h hh'
      exact ⟨⟨fun hn' => absurd hn' hn, fun hg' => absurd hg' hg⟩, fun hn' => absurd hn' hn⟩
    · rw [List.mem_singleton.mp hh']
      refine ⟨⟨fun _ => htg, fun _ => htn⟩, fun _ => ⟨rfl, ?_⟩⟩
      rw [hdec, List.getLast?_concat]

/-- Witness for `c9_terminal_hop`: on the end-to-end table the terminal hop
of the successful run has the sentinel gateway, no next equipment, and is
the last accumulated hop. -/
theorem c9_terminal_hop_witness :
    ((⟨"B", "192.168.1.0/24", "directo", none⟩ : Hop).nextEquipment = none ↔
      (⟨"B", "192.168.1.0/24", "directo", none⟩ : Hop).gateway = "directo") ∧
    ((⟨"B", "192.168.1.0/24", "directo", none⟩ : Hop).nextEquipment = none →
      (executeTraceroute "A" "192.168.1.1" "192.168.1.50" endToEndTable).success = true ∧
      (executeTraceroute "A" "192.168.1.1" "192.168.1.50" endToEndTable).hops.getLast? =
        some ⟨"B", "192.168.1.0/24", "directo", none⟩) :=
  c9_terminal_hop "A" "192.168.1.1" "192.168.1.50" endToEndTable
    ⟨"B", "192.168.1.0/24", "directo", none⟩ (by decide)

end Traceroute
